import Mathlib

/-!
Shallow embedding of the chart-creation engine (`ChartCreator` in
`chart_creator.py`) of the brcp_chatbot repository.

Python values that can occur in a chart request are modelled by the
inductive type `PyVal`.  A Python `bool` is kept as its own constructor,
but everywhere the source performs `isinstance(x, int)` the embedding
accepts `bool` as well, because in Python `bool` is a subtype of `int`.
Dictionaries are modelled as association lists with string keys in
insertion order (Python dicts preserve insertion order and have unique
keys); `chart_data` itself is such an association list.  Python floats
are modelled as rationals.  A raised exception is modelled as
`Except.error` (for the validators, which raise `ValueError` with a
message) or as `Option.none` (for expressions such as `data[0]` or
`float(s)` that can throw inside rendering helpers).
-/

inductive PyVal where
  | int : Int → PyVal
  | float : ℚ → PyVal
  | bool : Bool → PyVal
  | str : String → PyVal
  | list : List PyVal → PyVal
  | tuple : List PyVal → PyVal
  | dict : List (String × PyVal) → PyVal

namespace ChartCreator

/-- A Python dict with string keys, in insertion order. -/
abbrev Dict := List (String × PyVal)

/-- `k in d` for a Python dict. -/
def hasKey (cd : Dict) (k : String) : Bool :=
  cd.any (fun p => p.1 == k)

/-- `d[k]` as an `Option` (`None` models `KeyError`). -/
def getKey (cd : Dict) (k : String) : Option PyVal :=
  (cd.find? (fun p => p.1 == k)).map Prod.snd

/-- `d[k]` where the caller has already established `k in d`
(the default is never reached on those call sites). -/
def getItem (cd : Dict) (k : String) : PyVal :=
  (getKey cd k).getD (.str "KeyError")

/-- `d.get(k, default)`. -/
def getKeyD (cd : Dict) (k : String) (d : PyVal) : PyVal :=
  (getKey cd k).getD d

/-- `isinstance(v, int)` — Python `bool` is a subtype of `int`. -/
def isInstInt : PyVal → Bool
  | .int _ => true
  | .bool _ => true
  | _ => false

/-- `isinstance(v, (int, float))`. -/
def isInstIntFloat : PyVal → Bool
  | .int _ => true
  | .float _ => true
  | .bool _ => true
  | _ => false

/-- The Python integer value of an `int`-typed value (`True == 1`, `False == 0`). -/
def pyIntVal : PyVal → Int
  | .int n => n
  | .bool b => if b then 1 else 0
  | _ => 0

/-- `s.replace(".", "").replace("-", "")` as a character list. -/
def strippedDigits (s : String) : List Char :=
  s.toList.filter (fun c => c ≠ '.' ∧ c ≠ '-')

/-- `s.replace(".", "").replace("-", "").isdigit()` — the permissive
numeric-string check (ASCII digits; exotic Unicode digit characters are
outside the model). `isdigit` is false on the empty string. -/
def numericStr (s : String) : Bool :=
  !(strippedDigits s).isEmpty && (strippedDigits s).all Char.isDigit

/-- One element of the `all(...)` generator in `_validate_numeric_list`:
`isinstance(x, (int, float)) or (isinstance(x, str) and x.replace(".", "").replace("-", "").isdigit())`. -/
def isNumericVal (v : PyVal) : Bool :=
  match v with
  | .int _ => true
  | .float _ => true
  | .bool _ => true
  | .str s => numericStr s
  | _ => false

/-- `_validate_numeric_list` (raises `ValueError` unless every element is numeric). -/
def validate_numeric_list (data : List PyVal) (field : String) : Except String Unit :=
  if data.all isNumericVal then .ok ()
  else .error (field ++ " must contain only numeric values")

/-- `_validate_list_not_empty` (raises unless the value is a non-empty Python list). -/
def validate_list_not_empty (v : PyVal) (field : String) : Except String Unit :=
  match v with
  | .list xs => if xs.isEmpty then .error (field ++ " must be a non-empty list") else .ok ()
  | _ => .error (field ++ " must be a non-empty list")

/-- The underlying list of a value already validated by `validate_list_not_empty`. -/
def asList : PyVal → List PyVal
  | .list xs => xs
  | _ => []

/-- `_validate_pie_data`. -/
def validate_pie_data (cd : Dict) : Except String Unit :=
  if !hasKey cd "labels" then .error "Pie chart requires labels field"
  else if !hasKey cd "values" then .error "Pie chart requires values field"
  else
    let labels := getItem cd "labels"
    let values := getItem cd "values"
    match validate_list_not_empty labels "labels" with
    | .error e => .error e
    | .ok () =>
    match validate_list_not_empty values "values" with
    | .error e => .error e
    | .ok () =>
    match validate_numeric_list (asList values) "values" with
    | .error e => .error e
    | .ok () =>
    if (asList labels).length ≠ (asList values).length then
      .error "labels and values must have the same length"
    else .ok ()

/-- `_validate_x_y_format`. -/
def validate_x_y_format (cd : Dict) : Except String Unit :=
  let x_labels := getItem cd "x_labels"
  let y_values := getItem cd "y_values"
  match validate_list_not_empty x_labels "x_labels" with
  | .error e => .error e
  | .ok () =>
  match validate_list_not_empty y_values "y_values" with
  | .error e => .error e
  | .ok () =>
  match validate_numeric_list (asList y_values) "y_values" with
  | .error e => .error e
  | .ok () =>
  if (asList x_labels).length ≠ (asList y_values).length then
    .error "x_labels and y_values must have the same length"
  else .ok ()

/-- `_validate_labels_values_format`. -/
def validate_labels_values_format (cd : Dict) : Except String Unit :=
  let labels := getItem cd "labels"
  let values := getItem cd "values"
  match validate_list_not_empty labels "labels" with
  | .error e => .error e
  | .ok () =>
  match validate_list_not_empty values "values" with
  | .error e => .error e
  | .ok () =>
  match validate_numeric_list (asList values) "values" with
  | .error e => .error e
  | .ok () =>
  if (asList labels).length ≠ (asList values).length then
    .error "labels and values must have the same length"
  else .ok ()

/-- `set(a) == set(b)` on key lists. -/
def sameKeySet (a b : List String) : Bool :=
  a.all (fun k => b.contains k) && b.all (fun k => a.contains k)

/-- `_validate_data_format` — validates the `data` shape of bar charts.
After `_validate_list_not_empty` succeeds, `data` is a non-empty Python
list, so `data[0]` cannot throw. -/
def validate_data_format (cd : Dict) : Except String Unit :=
  let data := getItem cd "data"
  match validate_list_not_empty data "data" with
  | .error e => .error e
  | .ok () =>
  match asList data with
  | [] => .ok ()
  | d0 :: rest =>
    let xs := d0 :: rest
    match d0 with
    | .tuple _ =>
      if !(xs.all fun it => match it with | .tuple t => t.length == 2 | _ => false) then
        .error "data tuples must have exactly 2 elements each"
      else
        let seconds := xs.map (fun it => match it with | .tuple (_ :: b :: _) => b | _ => .int 0)
        validate_numeric_list seconds "data tuple values"
    | .dict kvs0 =>
      if !(xs.all fun it => match it with | .dict kv => decide (2 ≤ kv.length) | _ => false) then
        .error "data dictionaries must have at least 2 keys each"
      else
        let keys := kvs0.map Prod.fst
        if !(xs.all fun it => match it with
              | .dict kv => sameKeySet (kv.map Prod.fst) keys
              | _ => false) then
          .error "all data dictionaries must have the same keys"
        else
          let vals := xs.map (fun it =>
            match it with
            | .dict kv => (getKey kv ((keys.get? 1).getD "")).getD (.int 0)
            | _ => .int 0)
          validate_numeric_list vals "data dictionary values"
    | _ => validate_numeric_list xs "data values"

/-- `_validate_bar_data` — picks the shape to validate by fixed priority. -/
def validate_bar_data (cd : Dict) : Except String Unit :=
  let has_x_y_format := hasKey cd "x_labels" && hasKey cd "y_values"
  let has_labels_values := hasKey cd "labels" && hasKey cd "values"
  let has_data_format := hasKey cd "data"
  if !(has_x_y_format || has_labels_values || has_data_format) then
    .error "Bar chart requires one of: (x_labels and y_values), (labels and values), or data field"
  else if has_x_y_format then validate_x_y_format cd
  else if has_labels_values then validate_labels_values_format cd
  else if has_data_format then validate_data_format cd
  else .ok ()

/-- `_validate_line_data`. -/
def validate_line_data (cd : Dict) : Except String Unit :=
  if !hasKey cd "x_values" then .error "Line chart requires x_values field"
  else if !hasKey cd "y_values" then .error "Line chart requires y_values field"
  else
    let x_values := getItem cd "x_values"
    let y_values := getItem cd "y_values"
    match validate_list_not_empty x_values "x_values" with
    | .error e => .error e
    | .ok () =>
    match validate_list_not_empty y_values "y_values" with
    | .error e => .error e
    | .ok () =>
    match validate_numeric_list (asList x_values) "x_values" with
    | .error e => .error e
    | .ok () =>
    match validate_numeric_list (asList y_values) "y_values" with
    | .error e => .error e
    | .ok () =>
    if (asList x_values).length ≠ (asList y_values).length then
      .error "x_values and y_values must have the same length"
    else .ok ()

/-- `_validate_histogram_data`. -/
def validate_histogram_data (cd : Dict) : Except String Unit :=
  if !hasKey cd "data" then .error "Histogram requires data field"
  else
    let data := getItem cd "data"
    match validate_list_not_empty data "data" with
    | .error e => .error e
    | .ok () =>
    match validate_numeric_list (asList data) "data" with
    | .error e => .error e
    | .ok () =>
    if hasKey cd "bins" then
      let bins := getItem cd "bins"
      if !isInstInt bins || pyIntVal bins ≤ 0 then
        .error "bins must be a positive integer"
      else .ok ()
    else .ok ()

/-- `VALID_CHART_TYPES`. -/
def VALID_CHART_TYPES : List String := ["pie", "bar", "line", "histogram"]

/-- `_validate_chart_type` (raises `ValueError` on an unsupported kind). -/
def validate_chart_type (chart_type : String) : Except String Unit :=
  if VALID_CHART_TYPES.contains chart_type then .ok ()
  else .error ("Invalid chart_type " ++ chart_type ++ ". Must be one of: pie, bar, line, histogram")

/-- `_validate_chart_data_format` — dispatches on the chart type via
`getattr(self, f"_validate_{chart_type}_data")`.  `chart_data` being a
`Dict` models the `isinstance(chart_data, dict)` guard. -/
def validate_chart_data_format (cd : Dict) (chart_type : String) : Except String Unit :=
  if chart_type == "pie" then validate_pie_data cd
  else if chart_type == "bar" then validate_bar_data cd
  else if chart_type == "line" then validate_line_data cd
  else if chart_type == "histogram" then validate_histogram_data cd
  else .error "AttributeError"

/-- `v[i]` for an integer index (`tuple`/`list` subscripting; other
receivers raise and are modelled as `none`; string items, which Python
would index character-wise, cannot reach these call sites under
validation). -/
def pyIndexNat (v : PyVal) (i : Nat) : Option PyVal :=
  match v with
  | .tuple xs => xs.get? i
  | .list xs => xs.get? i
  | _ => none

/-- A Python list comprehension over `data` whose element expression can
raise: elements are produced left to right and the first raise aborts the
whole comprehension (`none`). -/
def mapOpt (f : PyVal → Option PyVal) : List PyVal → Option (List PyVal)
  | [] => some []
  | v :: vs =>
    match f v with
    | none => none
    | some w => (mapOpt f vs).map (fun ws => w :: ws)

/-- The `data` branch of `_extract_bar_data`, applied to `chart_data["data"]`.
`none` models a raised exception (`IndexError` on `data[0]` for an empty
list, `KeyError`/`TypeError` on the per-item subscripts; non-list `data`
is unreachable for validated input). -/
def extract_bar_from_data (data : PyVal) : Option (PyVal × PyVal) :=
  match data with
  | .list (d0 :: rest) =>
    let xs := d0 :: rest
    match d0 with
    | .tuple _ =>
      match mapOpt (fun it => pyIndexNat it 0) xs, mapOpt (fun it => pyIndexNat it 1) xs with
      | some ls, some vs => some (.list ls, .list vs)
      | _, _ => none
    | .dict kvs0 =>
      match kvs0.map Prod.fst with
      | k0 :: k1 :: _ =>
        match mapOpt (fun it => match it with | .dict kv => getKey kv k0 | _ => none) xs,
              mapOpt (fun it => match it with | .dict kv => getKey kv k1 | _ => none) xs with
        | some ls, some vs => some (.list ls, .list vs)
        | _, _ => none
      | _ => none
    | _ =>
      some (.list ((List.range xs.length).map (fun i => .str ("Item " ++ toString (i + 1)))),
            .list xs)
  | _ => none

/-- `_extract_bar_data` — normalizes the three accepted bar shapes to a
`(labels, values)` pair, with the literal `(["No Data"], [0])` fallback
when no shape key is present. -/
def extract_bar_data (cd : Dict) : Option (PyVal × PyVal) :=
  if hasKey cd "x_labels" && hasKey cd "y_values" then
    some (getItem cd "x_labels", getItem cd "y_values")
  else if hasKey cd "labels" && hasKey cd "values" then
    some (getItem cd "labels", getItem cd "values")
  else if hasKey cd "data" then
    extract_bar_from_data (getItem cd "data")
  else
    some (.list [.str "No Data"], .list [.int 0])

/-- `int(c) - int("0")` for a digit character. -/
def digitVal (c : Char) : Nat := c.toNat - 48

/-- The natural number denoted by a digit string. -/
def digitsToNat (cs : List Char) : Nat :=
  cs.foldl (fun a c => 10 * a + digitVal c) 0

/-- Python `float(s)` on strings whose characters are digits, `.` and `-`
(the only strings the coercion pass feeds it): accepted iff there is at
most one `-` and it is the leading character, at most one `.`, and at
least one digit; `none` models the raised `ValueError`.  The value is
exact (floats are modelled as rationals). -/
def pyFloatOfNumStr (s : String) : Option ℚ :=
  let cs := s.toList
  let sign : Bool := match cs with | '-' :: _ => true | _ => false
  let body : List Char := match cs with | '-' :: rest => rest | _ => cs
  if body.any (fun c => c = '-') then none
  else if 2 ≤ (body.filter (fun c => c = '.')).length then none
  else if !body.any Char.isDigit then none
  else
    let intPart := body.takeWhile (fun c => c ≠ '.')
    let fracPart := (body.dropWhile (fun c => c ≠ '.')).drop 1
    if intPart.all Char.isDigit && fracPart.all Char.isDigit then
      let q : ℚ := (digitsToNat intPart : ℚ) + (digitsToNat fracPart : ℚ) / 10 ^ fracPart.length
      some (if sign then -q else q)
    else none

/-- One iteration of the loop body of `_convert_to_numeric`:
`none` models `float(val)` raising inside the `try` block. -/
def convert_elem (v : PyVal) : Option PyVal :=
  match v with
  | .str s => if numericStr s then (pyFloatOfNumStr s).map PyVal.float else some (.int 0)
  | .int n => some (.int n)
  | .float q => some (.float q)
  | .bool b => some (.bool b)
  | _ => some (.int 0)

/-- The `for` loop of `_convert_to_numeric`: builds `converted` element by
element; `none` propagates a raised exception to the `except` handler. -/
def convert_loop : List PyVal → Option (List PyVal)
  | [] => some []
  | v :: vs =>
    match convert_elem v with
    | none => none
    | some w => (convert_loop vs).map (fun ws => w :: ws)

/-- `_convert_to_numeric` — per-element conversion inside `try`, with the
`except: return [1] * len(values)` fallback. -/
def convert_to_numeric (values : List PyVal) : List PyVal :=
  match convert_loop values with
  | some out => out
  | none => List.replicate values.length (.int 1)

/-- Whether this element makes the coercion pass throw: exactly a string
that passes the permissive digit check but is rejected by `float`. -/
def elemThrows (v : PyVal) : Bool :=
  match v with
  | .str s => numericStr s && (pyFloatOfNumStr s).isNone
  | _ => false

/-- The value a non-throwing element contributes to `converted`. -/
def convert_elem_ok (v : PyVal) : PyVal :=
  match v with
  | .str s => if numericStr s then .float ((pyFloatOfNumStr s).getD 0) else .int 0
  | .int n => .int n
  | .float q => .float q
  | .bool b => .bool b
  | _ => .int 0

/-- `_get_contrasting_text_color` on an RGB(A) channel list (channels are
Python floats, modelled as rationals; a value without `len() >= 3` falls
back to black). -/
def get_contrasting_text_color (background_color : List ℚ) : String :=
  match background_color with
  | r :: g :: b :: _ =>
    let luminance := (299 / 1000 : ℚ) * r + (587 / 1000 : ℚ) * g + (114 / 1000 : ℚ) * b
    if luminance > 1 / 2 then "black" else "white"
  | _ => "black"

/-- The luminance expression of `_get_contrasting_text_color`. -/
def luminanceOf (r g b : ℚ) : ℚ :=
  (299 / 1000 : ℚ) * r + (587 / 1000 : ℚ) * g + (114 / 1000 : ℚ) * b

/-- `f"chart_{uuid.uuid4().hex[:8]}.png"`, with the fresh UUID hex string
passed in as an oracle (randomness is external to the model). -/
def chart_filename (hex : String) : String :=
  "chart_" ++ hex.take 8 ++ ".png"

/-- The filesystem/rendering state a `create_chart` call can touch:
the export directory contents and how many figures were ever allocated. -/
structure RenderState where
  export_dir : List String
  figures_allocated : Nat

/-- `_create_and_save_chart`: allocates a figure, renders, saves
`chart_<hex8>.png` into the export directory and returns the filename. -/
def create_and_save_chart (st : RenderState) (hex : String) : RenderState × String :=
  let fname := chart_filename hex
  (⟨st.export_dir ++ [fname], st.figures_allocated + 1⟩, fname)

/-- `create_chart`: validates the chart type, then the data format, and
only then calls `_create_and_save_chart`.  The returned state records the
effect on the export directory and on figure allocation; on a validation
error the state is returned untouched, since both validators run before
`_create_and_save_chart` is entered. -/
def create_chart (st : RenderState) (cd : Dict) (chart_type : String) (hex : String) :
    Except String String × RenderState :=
  match validate_chart_type chart_type with
  | .error e => (.error e, st)
  | .ok () =>
    match validate_chart_data_format cd chart_type with
    | .error e => (.error e, st)
    | .ok () =>
      let r := create_and_save_chart st hex
      (.ok r.2, r.1)

/-- The bin count the histogram renderer uses:
`chart_data.get("bins", 10)` as a Python integer (`True == 1`). -/
def histogram_bins (cd : Dict) : Int :=
  pyIntVal (getKeyD cd "bins" (.int 10))

/-- The line-chart validity condition transcribed from the spec sentence:
both `x_values` and `y_values` present, both non-empty lists, every
element of both numeric under the permissive predicate, equal lengths.
(Spec-side restatement, compared with `validate_line_data` below.) -/
def line_spec_ok (cd : Dict) : Bool :=
  hasKey cd "x_values" && hasKey cd "y_values" &&
    (match getItem cd "x_values", getItem cd "y_values" with
     | .list xs, .list ys =>
         !xs.isEmpty && !ys.isEmpty && xs.all isNumericVal && ys.all isNumericVal &&
           xs.length == ys.length
     | _, _ => false)

end ChartCreator


namespace ChartCreator

/-- Claim C5: the numeric-validation predicate accepts exactly native ints
(including Python bools, which are ints), native floats, and strings
which after removing every `.` and `-` are non-empty and all digits;
`"1.2.3"` and `"--5"` are accepted, `"x"` and `""` rejected; and a list
fails `_validate_numeric_list` iff some element is rejected. -/
theorem numeric_predicate_characterization :
    (∀ n : Int, isNumericVal (.int n) = true) ∧
    (∀ q : ℚ, isNumericVal (.float q) = true) ∧
    (∀ b : Bool, isNumericVal (.bool b) = true) ∧
    (∀ s : String, isNumericVal (.str s) = true ↔
      strippedDigits s ≠ [] ∧ ∀ c ∈ strippedDigits s, c.isDigit = true) ∧
    (∀ xs : List PyVal, isNumericVal (.list xs) = false) ∧
    (∀ xs : List PyVal, isNumericVal (.tuple xs) = false) ∧
    (∀ kvs : List (String × PyVal), isNumericVal (.dict kvs) = false) ∧
    isNumericVal (.str "1.2.3") = true ∧
    isNumericVal (.str "--5") = true ∧
    isNumericVal (.str "x") = false ∧
    isNumericVal (.str "") = false ∧
    (∀ (vs : List PyVal) (field : String),
      validate_numeric_list vs field ≠ .ok () ↔ ∃ v ∈ vs, isNumericVal v = false) := by
  refine ⟨fun n => rfl, fun q => rfl, fun b => rfl, fun s => ?_, fun xs => rfl, fun xs => rfl,
    fun kvs => rfl, rfl, rfl, rfl, rfl, fun vs field => ?_⟩
  · simp [isNumericVal, numericStr, List.isEmpty_iff, List.all_eq_true]
  · unfold validate_numeric_list
    by_cases h : vs.all isNumericVal = true
    · rw [if_pos h]
      constructor
      · intro hne
        exact absurd rfl hne
      · rintro ⟨v, hv, hfalse⟩
        rw [List.all_eq_true] at h
        have hv2 := h v hv
        rw [hfalse] at hv2
        simp at hv2
    · rw [if_neg h]
      constructor
      · intro _
        have h2 : ¬ ∀ v ∈ vs, isNumericVal v = true := by
          rw [← List.all_eq_true]
          exact h
        push_neg at h2
        obtain ⟨v, hv, hne⟩ := h2
        exact ⟨v, hv, by simpa using hne⟩
      · intro _
        simp

/-- Claim C10: Python bools are accepted wherever a number is required: they
pass the numeric predicate and the `isinstance(bins, int)` check, and a
histogram request with `bins = True` validates and uses 1 bin. -/
theorem bool_accepted_as_numeric :
    (∀ b : Bool, isNumericVal (.bool b) = true) ∧
    (∀ b : Bool, isInstInt (.bool b) = true) ∧
    validate_histogram_data [("data", .list [.int 1]), ("bins", .bool true)] = .ok () ∧
    histogram_bins [("data", .list [.int 1]), ("bins", .bool true)] = 1 :=
  ⟨fun _ => rfl, fun _ => rfl, rfl, rfl⟩

/-- Claim C6: the wedge label text color is black iff the luminance
`0.299*r + 0.587*g + 0.114*b` exceeds 1/2, and white otherwise
(so luminance exactly 1/2 gives white); the choice is a function of the
input color, hence deterministic. -/
theorem contrast_color_spec (r g b : ℚ) (rest : List ℚ) :
    (get_contrasting_text_color (r :: g :: b :: rest) = "black" ↔ luminanceOf r g b > 1 / 2) ∧
    (get_contrasting_text_color (r :: g :: b :: rest) = "white" ↔ ¬ luminanceOf r g b > 1 / 2) := by
  unfold get_contrasting_text_color luminanceOf
  by_cases h : (299 / 1000 : ℚ) * r + (587 / 1000 : ℚ) * g + (114 / 1000 : ℚ) * b > 1 / 2 <;>
    simp [h]

/-- Claim C1: on any validation failure (invalid kind, or kind-specific data
validation failure), `create_chart` returns the error with the rendering
state untouched: no figure is allocated and the export directory is
unchanged. -/
theorem create_chart_validation_failure (st : RenderState) (cd : Dict) (ct hex e : String)
    (h : validate_chart_type ct = .error e ∨
         (validate_chart_type ct = .ok () ∧ validate_chart_data_format cd ct = .error e)) :
    create_chart st cd ct hex = (.error e, st) := by
  unfold create_chart
  rcases h with h | ⟨h1, h2⟩
  · rw [h]
  · rw [h1, h2]

theorem create_chart_validation_failure_witness :
    create_chart ⟨["old.png"], 0⟩ [] "scatter" "abcdef12" =
      (.error "Invalid chart_type scatter. Must be one of: pie, bar, line, histogram",
       ⟨["old.png"], 0⟩) ∧
    create_chart ⟨["old.png"], 0⟩ [("labels", .list [.str "A"])] "pie" "abcdef12" =
      (.error "Pie chart requires values field", ⟨["old.png"], 0⟩) :=
  ⟨create_chart_validation_failure _ _ _ _ _ (Or.inl rfl),
   create_chart_validation_failure _ _ _ _ _ (Or.inr ⟨rfl, rfl⟩)⟩

/-- Claim C2: bar validation and extraction select the input shape by the fixed
priority order `x_labels`/`y_values`, then `labels`/`values`, then
`data`; with none of the three, validation fails with the error naming
the three accepted shapes. -/
theorem bar_shape_priority (cd : Dict) :
    ((hasKey cd "x_labels" && hasKey cd "y_values") = true →
      validate_bar_data cd = validate_x_y_format cd ∧
      extract_bar_data cd = some (getItem cd "x_labels", getItem cd "y_values")) ∧
    ((hasKey cd "x_labels" && hasKey cd "y_values") = false →
      (hasKey cd "labels" && hasKey cd "values") = true →
      validate_bar_data cd = validate_labels_values_format cd ∧
      extract_bar_data cd = some (getItem cd "labels", getItem cd "values")) ∧
    ((hasKey cd "x_labels" && hasKey cd "y_values") = false →
      (hasKey cd "labels" && hasKey cd "values") = false →
      hasKey cd "data" = true →
      validate_bar_data cd = validate_data_format cd ∧
      extract_bar_data cd = extract_bar_from_data (getItem cd "data")) ∧
    ((hasKey cd "x_labels" && hasKey cd "y_values") = false →
      (hasKey cd "labels" && hasKey cd "values") = false →
      hasKey cd "data" = false →
      validate_bar_data cd =
        .error "Bar chart requires one of: (x_labels and y_values), (labels and values), or data field") := by
  refine ⟨fun h1 => ?_, fun h1 h2 => ?_, fun h1 h2 h3 => ?_, fun h1 h2 h3 => ?_⟩
  · simp only [validate_bar_data, extract_bar_data]
    rw [h1]
    simp
  · simp only [validate_bar_data, extract_bar_data]
    rw [h1, h2]
    simp
  · simp only [validate_bar_data, extract_bar_data]
    rw [h1, h2, h3]
    simp
  · simp only [validate_bar_data]
    rw [h1, h2, h3]
    simp

theorem bar_shape_priority_witness :
    validate_bar_data
        [("x_labels", .list [.str "A"]), ("y_values", .list [.int 1]),
         ("labels", .list [.str "B"]), ("values", .list [.int 2]), ("data", .list [.int 3])] =
      validate_x_y_format
        [("x_labels", .list [.str "A"]), ("y_values", .list [.int 1]),
         ("labels", .list [.str "B"]), ("values", .list [.int 2]), ("data", .list [.int 3])] ∧
    extract_bar_data
        [("x_labels", .list [.str "A"]), ("y_values", .list [.int 1]),
         ("labels", .list [.str "B"]), ("values", .list [.int 2]), ("data", .list [.int 3])] =
      some (.list [.str "A"], .list [.int 1]) :=
  (bar_shape_priority _).1 rfl

/-- Claim C9: whenever bar validation succeeds, at least one of the three shape
key sets is present, so extraction takes the corresponding shape branch
and the `(["No Data"], [0])` fallback branch is unreachable. -/
theorem bar_fallback_unreachable (cd : Dict) (h : validate_bar_data cd = .ok ()) :
    (((hasKey cd "x_labels" && hasKey cd "y_values") ||
      (hasKey cd "labels" && hasKey cd "values") ||
      hasKey cd "data") = true) ∧
    (extract_bar_data cd = some (getItem cd "x_labels", getItem cd "y_values") ∨
     extract_bar_data cd = some (getItem cd "labels", getItem cd "values") ∨
     extract_bar_data cd = extract_bar_from_data (getItem cd "data")) := by
  have hg : (((hasKey cd "x_labels" && hasKey cd "y_values") ||
      (hasKey cd "labels" && hasKey cd "values") ||
      hasKey cd "data") = true) := by
    by_contra hg
    rw [Bool.not_eq_true] at hg
    simp only [validate_bar_data] at h
    rw [hg] at h
    simp at h
  refine ⟨hg, ?_⟩
  by_cases h1 : (hasKey cd "x_labels" && hasKey cd "y_values") = true
  · exact Or.inl ((bar_shape_priority cd).1 h1).2
  · rw [Bool.not_eq_true] at h1
    by_cases h2 : (hasKey cd "labels" && hasKey cd "values") = true
    · exact Or.inr (Or.inl ((bar_shape_priority cd).2.1 h1 h2).2)
    · rw [Bool.not_eq_true] at h2
      have h3 : hasKey cd "data" = true := by
        simpa [h1, h2] using hg
      exact Or.inr (Or.inr ((bar_shape_priority cd).2.2.1 h1 h2 h3).2)

theorem bar_fallback_unreachable_witness :
    (((hasKey [("data", PyVal.list [.int 1])] "x_labels" &&
        hasKey [("data", PyVal.list [.int 1])] "y_values") ||
      (hasKey [("data", PyVal.list [.int 1])] "labels" &&
        hasKey [("data", PyVal.list [.int 1])] "values") ||
      hasKey [("data", PyVal.list [.int 1])] "data") = true) ∧
    (extract_bar_data [("data", PyVal.list [.int 1])] =
        some (getItem [("data", PyVal.list [.int 1])] "x_labels",
              getItem [("data", PyVal.list [.int 1])] "y_values") ∨
     extract_bar_data [("data", PyVal.list [.int 1])] =
        some (getItem [("data", PyVal.list [.int 1])] "labels",
              getItem [("data", PyVal.list [.int 1])] "values") ∨
     extract_bar_data [("data", PyVal.list [.int 1])] =
        extract_bar_from_data (getItem [("data", PyVal.list [.int 1])] "data")) :=
  bar_fallback_unreachable [("data", PyVal.list [.int 1])] rfl

/-- Helper: elements that do not make the coercion pass throw convert to
their `convert_elem_ok` value. -/
theorem convert_elem_eq_some (v : PyVal) (h : elemThrows v = false) :
    convert_elem v = some (convert_elem_ok v) := by
  cases v with
  | str s =>
    simp only [elemThrows] at h
    by_cases hn : numericStr s = true
    · rw [hn, Bool.true_and] at h
      cases hq : pyFloatOfNumStr s with
      | none => rw [hq] at h; simp at h
      | some q => simp [convert_elem, convert_elem_ok, hn, hq]
    · rw [Bool.not_eq_true] at hn
      simp [convert_elem, convert_elem_ok, hn]
  | int n => rfl
  | float q => rfl
  | bool b => rfl
  | list xs => rfl
  | tuple xs => rfl
  | dict kvs => rfl

/-- Helper: a throwing element makes `convert_elem` fail. -/
theorem convert_elem_eq_none (v : PyVal) (h : elemThrows v = true) :
    convert_elem v = none := by
  cases v with
  | str s =>
    simp only [elemThrows, Bool.and_eq_true] at h
    obtain ⟨hn, hq⟩ := h
    rw [Option.isNone_iff_eq_none] at hq
    simp [convert_elem, hn, hq]
  | int n => simp [elemThrows] at h
  | float q => simp [elemThrows] at h
  | bool b => simp [elemThrows] at h
  | list xs => simp [elemThrows] at h
  | tuple xs => simp [elemThrows] at h
  | dict kvs => simp [elemThrows] at h

/-- Helper: when no element throws, the loop completes elementwise. -/
theorem convert_loop_all_ok (values : List PyVal)
    (h : values.all (fun v => !elemThrows v) = true) :
    convert_loop values = some (values.map convert_elem_ok) := by
  induction values with
  | nil => rfl
  | cons v vs ih =>
    rw [List.all_cons, Bool.and_eq_true] at h
    have h1 : elemThrows v = false := by
      have h2 := h.1
      simpa using h2
    simp [convert_loop, convert_elem_eq_some v h1, ih h.2]

/-- Helper: any throwing element aborts the whole loop. -/
theorem convert_loop_throws (values : List PyVal)
    (h : values.any elemThrows = true) :
    convert_loop values = none := by
  induction values with
  | nil => simp at h
  | cons v vs ih =>
    rw [List.any_cons, Bool.or_eq_true] at h
    rcases h with h | h
    · simp [convert_loop, convert_elem_eq_none v h]
    · rw [convert_loop, ih h]
      cases hq : convert_elem v <;> simp

/-- Claim C4: numeric coercion during bar rendering is per-element with default
0 for elements failing the permissive check, but if any element makes the
pass throw (a digit-check-passing string that `float` rejects, such as
`"1.2.3"`), the whole output is the all-ones list of the input length. -/
theorem convert_to_numeric_spec (values : List PyVal) :
    (values.all (fun v => !elemThrows v) = true →
      convert_to_numeric values = values.map convert_elem_ok) ∧
    (∀ v : PyVal, isNumericVal v = false → convert_elem_ok v = .int 0) ∧
    (values.any elemThrows = true →
      convert_to_numeric values = List.replicate values.length (.int 1)) ∧
    elemThrows (.str "1.2.3") = true ∧
    convert_to_numeric [.str "1.2.3", .int 5] = [.int 1, .int 1] := by
  refine ⟨fun h => ?_, fun v hv => ?_, fun h => ?_, rfl, rfl⟩
  · rw [convert_to_numeric, convert_loop_all_ok values h]
  · cases v with
    | str s =>
      simp only [isNumericVal] at hv
      simp [convert_elem_ok, hv]
    | int n => simp [isNumericVal] at hv
    | float q => simp [isNumericVal] at hv
    | bool b => simp [isNumericVal] at hv
    | list xs => rfl
    | tuple xs => rfl
    | dict kvs => rfl
  · rw [convert_to_numeric, convert_loop_throws values h]

theorem convert_to_numeric_spec_witness :
    convert_to_numeric [.int 5, .str "x", .list []] =
      List.map convert_elem_ok [.int 5, .str "x", .list []] ∧
    convert_elem_ok (.str "x") = .int 0 :=
  ⟨(convert_to_numeric_spec [.int 5, .str "x", .list []]).1 rfl,
   (convert_to_numeric_spec []).2.1 (.str "x") rfl⟩

/-- Helper: distinct 8-character oracle prefixes give distinct filenames. -/
theorem chart_filename_ne {h1 h2 : String} (hne : h1.take 8 ≠ h2.take 8) :
    chart_filename h1 ≠ chart_filename h2 := by
  intro he
  apply hne
  unfold chart_filename at he
  have hd := congrArg String.data he
  simp only [String.data_append] at hd
  have hmid := List.append_cancel_left (List.append_cancel_right hd)
  exact String.ext hmid

/-- Claim C8: two `create_chart` calls with identical request and kind but
fresh (distinct) UUID suffixes both succeed, return distinct filenames,
and the export directory ends up holding both artifacts (no overwrite). -/
theorem create_chart_distinct_filenames (st : RenderState) (cd : Dict) (ct h1 h2 : String)
    (hv : validate_chart_type ct = .ok ()) (hd : validate_chart_data_format cd ct = .ok ())
    (hne : h1.take 8 ≠ h2.take 8) :
    (create_chart st cd ct h1).1 = .ok (chart_filename h1) ∧
    (create_chart (create_chart st cd ct h1).2 cd ct h2).1 = .ok (chart_filename h2) ∧
    chart_filename h1 ≠ chart_filename h2 ∧
    (create_chart (create_chart st cd ct h1).2 cd ct h2).2.export_dir =
      st.export_dir ++ [chart_filename h1, chart_filename h2] := by
  refine ⟨?_, ?_, chart_filename_ne hne, ?_⟩ <;>
    simp [create_chart, hv, hd, create_and_save_chart]

theorem create_chart_distinct_filenames_witness :
    (create_chart ⟨[], 0⟩ [("labels", .list [.str "A"]), ("values", .list [.int 1])] "pie" "aaaaaaaa").1 =
      .ok (chart_filename "aaaaaaaa") ∧
    (create_chart (create_chart ⟨[], 0⟩ [("labels", .list [.str "A"]), ("values", .list [.int 1])] "pie" "aaaaaaaa").2
        [("labels", .list [.str "A"]), ("values", .list [.int 1])] "pie" "bbbbbbbb").1 =
      .ok (chart_filename "bbbbbbbb") ∧
    chart_filename "aaaaaaaa" ≠ chart_filename "bbbbbbbb" ∧
    (create_chart (create_chart ⟨[], 0⟩ [("labels", .list [.str "A"]), ("values", .list [.int 1])] "pie" "aaaaaaaa").2
        [("labels", .list [.str "A"]), ("values", .list [.int 1])] "pie" "bbbbbbbb").2.export_dir =
      ([] : List String) ++ [chart_filename "aaaaaaaa", chart_filename "bbbbbbbb"] :=
  create_chart_distinct_filenames ⟨[], 0⟩
    [("labels", .list [.str "A"]), ("values", .list [.int 1])] "pie" "aaaaaaaa" "bbbbbbbb"
    rfl rfl (by decide)

/-- Helper: `extract_bar_data` on a request holding only `data`. -/
theorem extract_data_only (d : PyVal) :
    extract_bar_data [("data", d)] = extract_bar_from_data d := rfl

/-- Helper: first components of a list of 2-tuples. -/
theorem mapOpt_tuple_fst (ps : List (PyVal × PyVal)) :
    mapOpt (fun it => pyIndexNat it 0) (ps.map (fun p => PyVal.tuple [p.1, p.2])) =
      some (ps.map Prod.fst) := by
  induction ps with
  | nil => rfl
  | cons p ps ih =>
    have h : pyIndexNat (PyVal.tuple [p.1, p.2]) 0 = some p.1 := rfl
    simp [mapOpt, h, ih]

/-- Helper: second components of a list of 2-tuples. -/
theorem mapOpt_tuple_snd (ps : List (PyVal × PyVal)) :
    mapOpt (fun it => pyIndexNat it 1) (ps.map (fun p => PyVal.tuple [p.1, p.2])) =
      some (ps.map Prod.snd) := by
  induction ps with
  | nil => rfl
  | cons p ps ih =>
    have h : pyIndexNat (PyVal.tuple [p.1, p.2]) 1 = some p.2 := rfl
    simp [mapOpt, h, ih]

/-- Helper: looking up the first key in uniform 2-key mappings. -/
theorem mapOpt_dict_fst (k0 k1 : String) (ps : List (PyVal × PyVal)) :
    mapOpt (fun it => match it with | .dict kv => getKey kv k0 | _ => none)
        (ps.map (fun p => PyVal.dict [(k0, p.1), (k1, p.2)])) =
      some (ps.map Prod.fst) := by
  induction ps with
  | nil => rfl
  | cons p ps ih =>
    have h : getKey [(k0, p.1), (k1, p.2)] k0 = some p.1 := by simp [getKey]
    simp [mapOpt, h, ih]

/-- Helper: looking up the second key in uniform 2-key mappings. -/
theorem mapOpt_dict_snd (k0 k1 : String) (hk : k0 ≠ k1) (ps : List (PyVal × PyVal)) :
    mapOpt (fun it => match it with | .dict kv => getKey kv k1 | _ => none)
        (ps.map (fun p => PyVal.dict [(k0, p.1), (k1, p.2)])) =
      some (ps.map Prod.snd) := by
  have hbeq : (k0 == k1) = false := by simp [hk]
  induction ps with
  | nil => rfl
  | cons p ps ih =>
    have h : getKey [(k0, p.1), (k1, p.2)] k1 = some p.2 := by
      simp [getKey, List.find?, hbeq]
    simp [mapOpt, h, ih]

/-- Helper: the tuple sub-shape of the bar `data` branch. -/
theorem extract_from_data_tuples (p0 : PyVal × PyVal) (ps : List (PyVal × PyVal)) :
    extract_bar_from_data (.list ((p0 :: ps).map fun p => PyVal.tuple [p.1, p.2])) =
      some (.list ((p0 :: ps).map Prod.fst), .list ((p0 :: ps).map Prod.snd)) := by
  have h0 := mapOpt_tuple_fst (p0 :: ps)
  have h1 := mapOpt_tuple_snd (p0 :: ps)
  simp only [List.map_cons] at h0 h1 ⊢
  simp only [extract_bar_from_data]
  rw [h0, h1]

/-- Helper: the mapping sub-shape of the bar `data` branch. -/
theorem extract_from_data_dicts (k0 k1 : String) (hk : k0 ≠ k1)
    (p0 : PyVal × PyVal) (ps : List (PyVal × PyVal)) :
    extract_bar_from_data (.list ((p0 :: ps).map fun p => PyVal.dict [(k0, p.1), (k1, p.2)])) =
      some (.list ((p0 :: ps).map Prod.fst), .list ((p0 :: ps).map Prod.snd)) := by
  have h0 := mapOpt_dict_fst k0 k1 (p0 :: ps)
  have h1 := mapOpt_dict_snd k0 k1 hk (p0 :: ps)
  simp only [List.map_cons] at h0 h1 ⊢
  simp only [extract_bar_from_data, List.map_cons, List.map_nil]
  rw [h0, h1]

/-- Helper: the bare-values sub-shape of the bar `data` branch. -/
theorem extract_from_data_bare (v0 : PyVal) (vs : List PyVal) (h : isNumericVal v0 = true) :
    extract_bar_from_data (.list (v0 :: vs)) =
      some (.list ((List.range (v0 :: vs).length).map fun i => PyVal.str ("Item " ++ toString (i + 1))),
            .list (v0 :: vs)) := by
  cases v0 <;> simp_all [isNumericVal, extract_bar_from_data]

/-- Claim C3 counterexample: the same underlying pair sequence `[("A", 1)]`
presented via the tuple sub-shape and via the bare-values sub-shape gives
different normalized label sequences (`["A"]` versus the synthesized
`["Item 1"]`), so the three sub-shapes are not output-identical for every
underlying (label, value) sequence. -/
theorem bar_shape_independence_cex :
    extract_bar_data [("data", .list [.tuple [.str "A", .int 1]])] =
      some (.list [.str "A"], .list [.int 1]) ∧
    extract_bar_data [("data", .list [.int 1])] =
      some (.list [.str "Item 1"], .list [.int 1]) ∧
    (some (PyVal.list [.str "A"], PyVal.list [.int 1]) :
        Option (PyVal × PyVal)) ≠
      some (PyVal.list [.str "Item 1"], PyVal.list [.int 1]) := by
  refine ⟨rfl, rfl, ?_⟩
  intro h
  simp at h

/-- Claim C3 as amended: for every underlying (label, value) sequence, the tuple
and mapping sub-shapes normalize to the identical (labels, values) pair,
and all three sub-shapes yield the identical value sequence; the
bare-values sub-shape synthesizes the labels `"Item {i+1}"`, so it agrees
with the other two exactly when the underlying labels are those. -/
theorem bar_shape_independence_amended (ls vs : List PyVal) (k0 k1 : String)
    (hne : ls ≠ []) (hlen : ls.length = vs.length) (hk : k0 ≠ k1)
    (hnum : vs.all isNumericVal = true) :
    extract_bar_data [("data", .list ((ls.zip vs).map fun p => PyVal.tuple [p.1, p.2]))] =
      some (.list ls, .list vs) ∧
    extract_bar_data [("data", .list ((ls.zip vs).map fun p => PyVal.dict [(k0, p.1), (k1, p.2)]))] =
      some (.list ls, .list vs) ∧
    extract_bar_data [("data", .list vs)] =
      some (.list ((List.range vs.length).map fun i => PyVal.str ("Item " ++ toString (i + 1))),
            .list vs) := by
  have hvne : vs ≠ [] := by
    intro hv
    rw [hv, List.length_nil, List.length_eq_zero] at hlen
    exact hne hlen
  obtain ⟨l0, ls0, rfl⟩ := List.exists_cons_of_ne_nil hne
  obtain ⟨v0, vs0, rfl⟩ := List.exists_cons_of_ne_nil hvne
  have hfst : (((l0 :: ls0).zip (v0 :: vs0)).map Prod.fst) = l0 :: ls0 :=
    List.map_fst_zip _ _ (le_of_eq hlen)
  have hsnd : (((l0 :: ls0).zip (v0 :: vs0)).map Prod.snd) = v0 :: vs0 :=
    List.map_snd_zip _ _ (le_of_eq hlen.symm)
  have hzip : (l0 :: ls0).zip (v0 :: vs0) = (l0, v0) :: ls0.zip vs0 := rfl
  have hnum0 : isNumericVal v0 = true := by
    rw [List.all_cons, Bool.and_eq_true] at hnum
    exact hnum.1
  refine ⟨?_, ?_, ?_⟩
  · rw [extract_data_only, hzip, extract_from_data_tuples (l0, v0) (ls0.zip vs0),
      ← hzip, hfst, hsnd]
  · rw [extract_data_only, hzip, extract_from_data_dicts k0 k1 hk (l0, v0) (ls0.zip vs0),
      ← hzip, hfst, hsnd]
  · rw [extract_data_only, extract_from_data_bare v0 vs0 hnum0]

theorem bar_shape_independence_amended_witness :
    extract_bar_data
        [("data", .list (([PyVal.str "Item 1"].zip [PyVal.int 1]).map fun p => PyVal.tuple [p.1, p.2]))] =
      some (.list [PyVal.str "Item 1"], .list [PyVal.int 1]) ∧
    extract_bar_data
        [("data", .list (([PyVal.str "Item 1"].zip [PyVal.int 1]).map fun p => PyVal.dict [("name", p.1), ("value", p.2)]))] =
      some (.list [PyVal.str "Item 1"], .list [PyVal.int 1]) ∧
    extract_bar_data [("data", .list [PyVal.int 1])] =
      some (.list ((List.range [PyVal.int 1].length).map fun i => PyVal.str ("Item " ++ toString (i + 1))),
            .list [PyVal.int 1]) :=
  bar_shape_independence_amended [.str "Item 1"] [.int 1] "name" "value"
    (by simp) rfl (by decide) rfl

/-- Claim C7: line-chart validation succeeds exactly when `x_values` and
`y_values` are both present, both non-empty lists, both all-numeric under
the permissive predicate, and of equal length; on `x_values = [1, 2]` and
`y_values = [1, "x"]` it fails the numeric check on `y_values`. -/
theorem line_validation_iff (cd : Dict) :
    (validate_line_data cd = .ok () ↔ line_spec_ok cd = true) ∧
    validate_line_data [("x_values", .list [.int 1, .int 2]), ("y_values", .list [.int 1, .str "x"])] =
      .error "y_values must contain only numeric values" := by
  refine ⟨?_, rfl⟩
  by_cases hx : hasKey cd "x_values" = true
  case neg =>
    rw [Bool.not_eq_true] at hx
    simp [validate_line_data, line_spec_ok, hx]
  by_cases hy : hasKey cd "y_values" = true
  case neg =>
    rw [Bool.not_eq_true] at hy
    simp [validate_line_data, line_spec_ok, hx, hy]
  cases hgx : getItem cd "x_values" <;> cases hgy : getItem cd "y_values" <;>
    simp_all [validate_line_data, line_spec_ok, validate_list_not_empty, validate_numeric_list,
      asList] <;>
    repeat' split <;> simp_all <;> intros <;> (try split_ifs at *) <;> simp_all

end ChartCreator
